import Mathlib

/-!
Verification development for the crash-dump stack-walking core of
rust-minidump (`minidump-processor`): a shallow embedding of
`src/minidump-processor/src/processor.rs` and
`src/minidump-processor/src/stackwalker/mod.rs`, together with theorems
settling the specification claims.

Modelling conventions:
* Machine integers (`u64`, `u32`) are `Nat`; subtraction that would
  underflow in Rust debug builds (a panic) is modelled with `Option`.
* Byte strings (`LinuxOsStr`) are modelled as `String`.
* Fallible Rust functions return `Except` / `Option`.
* The per-architecture unwinders, the `minidump` container crate, the
  `process_state` module and the symbol provider are outside the embedded
  sources; they are abstracted as parameters or modelled from the spec,
  each such definition saying so in its doc comment.
-/

namespace Minidump

/-- Frame provenance, from the spec's data model:
`trust ∈ {Context, CFI, FramePointer, Scan, Prewalked, None}`. -/
inductive FrameTrust where
  | context
  | cfi
  | framePointer
  | scan
  | prewalked
  | none
deriving DecidableEq, Repr

/-- Modelled from the spec: `CallStackInfo ∈ {Ok, MissingContext, DumpThreadSkipped, ...}`
(the enum lives in `process_state.rs`, outside the embedded sources). -/
inductive CallStackInfo where
  | ok
  | missingContext
  | dumpThreadSkipped
deriving DecidableEq, Repr

/-- A loaded module: an address interval `[base_of_image, base_of_image + size_of_image)`
plus a name. Mirrors the fields of `MinidumpModule` used by the embedded code. -/
structure MinidumpModule where
  base_of_image : Nat
  size_of_image : Nat
  name : String
deriving DecidableEq, Repr

/-- An unloaded module, same shape (`unloaded.raw.base_of_image`, `unloaded.name`). -/
structure UnloadedModule where
  base_of_image : Nat
  size_of_image : Nat
  name : String
deriving DecidableEq, Repr

/-- Does the module's interval contain `addr`? -/
def MinidumpModule.contains (m : MinidumpModule) (addr : Nat) : Bool :=
  m.base_of_image ≤ addr && addr < m.base_of_image + m.size_of_image

def UnloadedModule.contains (m : UnloadedModule) (addr : Nat) : Bool :=
  m.base_of_image ≤ addr && addr < m.base_of_image + m.size_of_image

/-- Modelled from the spec: `ModuleMap` is "an interval lookup over loaded
modules (address ranges → module)"; `MinidumpModuleList::module_at_address`
returns the module whose interval covers the address. -/
def module_at_address (modules : List MinidumpModule) (addr : Nat) :
    Option MinidumpModule :=
  modules.find? (fun m => m.contains addr)

/-- Modelled from the spec: the unloaded-module lookup "may contain multiple
overlapping entries at a given address";
`MinidumpUnloadedModuleList::modules_at_address` yields all of them. -/
def modules_at_address (unloaded : List UnloadedModule) (addr : Nat) :
    List UnloadedModule :=
  unloaded.filter (fun m => m.contains addr)

/-- One callback issued by the symbol provider against a `FrameSymbolizer`:
`set_function(name, base, parameter_size)` or `set_source_file(file, line, base)`. -/
inductive SymCall where
  | setFunction (name : String) (base : Nat) (parameterSize : Nat)
  | setSourceFile (file : String) (line : Nat) (base : Nat)
deriving DecidableEq, Repr

/-- The symbol provider, abstracted: `fill_symbol(module, frame)` observes only
the frame's instruction (`FrameSymbolizer::get_instruction`) and issues a
sequence of symbolizer callbacks, then reports success or failure
(`Result<(), FillSymbolError>`); callbacks made before a failure persist.
`stats` abstracts `SymbolProvider::stats()`. -/
structure SymbolProviderModel where
  fillSymbol : MinidumpModule → Nat → List SymCall × Bool
  stats : Nat

/-- The `DummyFrame` used inside `instruction_seems_valid_by_symbols`:
`set_function` stores `has_name = !name.is_empty()` (last call wins),
`set_source_file` does nothing; `has_name` starts `false`. -/
def dummyHasName (calls : List SymCall) : Bool :=
  calls.foldl
    (fun hasName call =>
      match call with
      | SymCall.setFunction name _ _ => !name.isEmpty
      | SymCall.setSourceFile _ _ _ => hasName)
    false

/-- The function `instruction_seems_valid_by_symbols(instruction, modules,
symbol_provider)` from `stackwalker/mod.rs`. The unguarded `let instruction = instruction - 1;`
underflows for `instruction = 0` (a panic in debug builds), modelled as `none`;
otherwise:
* no module covers the probe address ⇒ `false`;
* a module covers it and `fill_symbol` succeeds ⇒ the dummy frame's `has_name`;
* a module covers it and `fill_symbol` errors ⇒ `true`. -/
def instruction_seems_valid_by_symbols (instruction : Nat)
    (modules : List MinidumpModule) (symbol_provider : SymbolProviderModel) :
    Option Bool :=
  if instruction = 0 then
    Option.none
  else
    match module_at_address modules (instruction - 1) with
    | Option.some m =>
        match symbol_provider.fillSymbol m (instruction - 1) with
        | (calls, true) => Option.some (dummyHasName calls)
        | (_, false) => Option.some true
    | Option.none => Option.some false

/-- Value of a hexadecimal digit, as accepted by Rust's
`char::to_digit(16)`: `0-9`, `a-f`, `A-F`. -/
def hexVal? (c : Char) : Option Nat :=
  if '0' ≤ c ∧ c ≤ '9' then Option.some (c.toNat - '0'.toNat)
  else if 'a' ≤ c ∧ c ≤ 'f' then Option.some (c.toNat - 'a'.toNat + 10)
  else if 'A' ≤ c ∧ c ≤ 'F' then Option.some (c.toNat - 'A'.toNat + 10)
  else Option.none

def isHexDigitChar (c : Char) : Bool :=
  (hexVal? c).isSome

/-- Numeric value of a list of hex digits, most significant first. -/
def hexValue (cs : List Char) : Nat :=
  cs.foldl (fun acc c => acc * 16 + ((hexVal? c).getD 0)) 0

/-- Digit-sequence part of `from_str_radix`: at least one character, all hex
digits, value within `u64` (Rust reports overflow past `u64::MAX` as an
error). -/
def parseHexDigits (ds : List Char) : Option Nat :=
  if ds.isEmpty then Option.none
  else if ds.all isHexDigitChar then
    if hexValue ds < 2 ^ 64 then Option.some (hexValue ds) else Option.none
  else Option.none

/-- Rust's `u64::from_str_radix(s, 16)` (core library, outside the embedded
sources, modelled from its documented behaviour for unsigned integers): an
optional leading `+` sign followed by one or more hex digits; empty digit
sequences, any other character (including `-`, rejected for unsigned types)
and values not fitting in `u64` are errors. -/
def u64_from_str_radix_16 (s : String) : Option Nat :=
  match s.data with
  | [] => Option.none
  | c :: cs => parseHexDigits (if c = '+' then cs else c :: cs)

/-- Rust's `str::strip_prefix` restricted to the literal prefix `"0x"`. -/
def stripPrefix0x (s : String) : Option String :=
  match s.data with
  | c0 :: c1 :: rest =>
      if c0 = '0' ∧ c1 = 'x' then Option.some (String.mk rest) else Option.none
  | _ => Option.none

/-- The microcode extraction loop of `process_minidump_with_options`
(processor.rs lines 111-121): take the value of the first `microcode` key,
strip a leading `0x`, parse the remainder as a hex `u64`; any failure, or an
absent key, leaves the result `None`. -/
def extractMicrocode (linux_cpu_info : List (String × String)) : Option Nat :=
  match linux_cpu_info.find? (fun kv => kv.1 = "microcode") with
  | Option.none => Option.none
  | Option.some kv => (stripPrefix0x kv.2).bind u64_from_str_radix_16

/-- The struct `LinuxStandardBase` (from `process_state.rs`, modelled from the spec:
id, release, codename, description; `Default` gives empty strings). -/
structure LinuxStandardBase where
  id : String
  release : String
  codename : String
  description : String
deriving DecidableEq, Repr

def LinuxStandardBase.default : LinuxStandardBase :=
  { id := "", release := "", codename := "", description := "" }

/-- One step of the LSB key/value loop (processor.rs lines 125-139):
both the `DISTRIB_*` and the `/etc/os-release` spelling of each key update
the same field; unknown keys are ignored. -/
def lsbStep (lsb : LinuxStandardBase) (kv : String × String) : LinuxStandardBase :=
  if kv.1 = "DISTRIB_ID" ∨ kv.1 = "ID" then
    { lsb with id := kv.2 }
  else if kv.1 = "DISTRIB_RELEASE" ∨ kv.1 = "VERSION_ID" then
    { lsb with release := kv.2 }
  else if kv.1 = "DISTRIB_CODENAME" ∨ kv.1 = "VERSION_CODENAME" then
    { lsb with codename := kv.2 }
  else if kv.1 = "DISTRIB_DESCRIPTION" ∨ kv.1 = "PRETTY_NAME" then
    { lsb with description := kv.2 }
  else
    lsb

/-- The whole LSB stream consumed as key/value pairs, starting from the
default value (processor.rs lines 123-141). -/
def parseLsb (pairs : List (String × String)) : LinuxStandardBase :=
  pairs.foldl lsbStep LinuxStandardBase.default

/-- A CPU context (`MinidumpContext`): the per-architecture register files of
the `minidump` crate are outside the embedded sources, so a context is
modelled from the spec as a register file of named 64-bit registers. -/
structure MinidumpContext where
  regs : List (String × Nat)
deriving DecidableEq, Repr

/-- Modelled from the spec: the canonical program-counter register of the
context's architecture, read by `StackFrame::from_context` to seed the
frame's instruction address. -/
def MinidumpContext.get_instruction_pointer (ctx : MinidumpContext) : Nat :=
  (ctx.regs.lookup "pc").getD 0

/-- A stack frame, with the fields of `StackFrame` the embedded code reads or
writes (`process_state.rs` is outside the embedded sources; the fields follow
the spec's data model). `unloaded_modules` is the `BTreeMap<String, BTreeSet<u64>>`
modelled as an association list of offset lists. -/
structure StackFrame where
  instruction : Nat
  trust : FrameTrust
  context : MinidumpContext
  module : Option MinidumpModule
  function_name : Option String
  function_base : Option Nat
  parameter_size : Option Nat
  source_file : Option String
  source_line : Option Nat
  source_line_base : Option Nat
  unloaded_modules : List (String × List Nat)
deriving DecidableEq, Repr

/-- Modelled from the spec: `StackFrame::from_context(ctx, trust)` builds a
fresh frame owning the context, its instruction taken from the context's
program counter, with no module, symbols or unloaded-module entries. -/
def StackFrame.from_context (ctx : MinidumpContext) (trust : FrameTrust) :
    StackFrame :=
  { instruction := ctx.get_instruction_pointer
    trust := trust
    context := ctx
    module := Option.none
    function_name := Option.none
    function_base := Option.none
    parameter_size := Option.none
    source_file := Option.none
    source_line := Option.none
    source_line_base := Option.none
    unloaded_modules := [] }

/-- Effect of one symbolizer callback on a real `StackFrame`
(`FrameSymbolizer` impl in `process_state.rs`, modelled from the spec's field
list). -/
def applySymCall (frame : StackFrame) (call : SymCall) : StackFrame :=
  match call with
  | SymCall.setFunction name base parameterSize =>
      { frame with
        function_name := Option.some name
        function_base := Option.some base
        parameter_size := Option.some parameterSize }
  | SymCall.setSourceFile file line base =>
      { frame with
        source_file := Option.some file
        source_line := Option.some line
        source_line_base := Option.some base }

/-- The function `fill_source_line_info(frame, modules, symbol_provider)` from
`stackwalker/mod.rs`: attach the module covering the frame's instruction and
request a best-effort symbol fill; the fill's error (if any) is ignored but
callbacks made persist; with no covering module the frame is untouched. -/
def fill_source_line_info (frame : StackFrame) (modules : List MinidumpModule)
    (symbol_provider : SymbolProviderModel) : StackFrame :=
  match module_at_address modules frame.instruction with
  | Option.some m =>
      let frame := { frame with module := Option.some m }
      (symbol_provider.fillSymbol m frame.instruction).1.foldl applySymCall frame
  | Option.none => frame

/-- A stack memory region (`MinidumpMemory`): its contents are only read by
the per-architecture unwinders, which are outside the embedded sources, so
only the address interval is modelled. -/
structure StackMemory where
  base : Nat
  size : Nat
deriving DecidableEq, Repr

/-- The per-architecture `get_caller_frame` dispatched by
`stackwalker/mod.rs`: the architecture modules (`amd64.rs`, `x86.rs`, `arm.rs`,
`arm64.rs`, `arm64_old.rs`) are outside the embedded sources, so the recovery
of a caller frame from `(callee, grand_callee, stack_memory, modules)` is an
abstract parameter (it returns `none` when no valid caller is found, which is
also the dispatcher's answer for unsupported architectures). -/
abbrev GetCallerFrame :=
  StackFrame → Option StackFrame → Option StackMemory →
    List MinidumpModule → Option StackFrame

/-- A call stack, with the fields of `CallStack` the embedded code uses. -/
structure CallStack where
  frames : List StackFrame
  info : CallStackInfo
  thread_id : Nat
  thread_name : Option String
  last_error_value : Option Nat
deriving DecidableEq, Repr

/-- Modelled from the spec: `CallStack::with_info(id, info)` is an empty
stack carrying only the thread id and the info value. -/
def CallStack.with_info (id : Nat) (info : CallStackInfo) : CallStack :=
  { frames := []
    info := info
    thread_id := id
    thread_name := Option.none
    last_error_value := Option.none }

/-- The frame loop of `walk_stack`: symbolize the current frame, push it, ask
the unwinder for a caller frame (the callee is the last pushed frame, the
grand-callee the one before it) and repeat until the unwinder gives up. The
real loop terminates by the strict stack-pointer increase the unwinders
enforce; with the unwinder abstract, `fuel` bounds the number of
`get_caller_frame` calls. -/
def walkFrames (gcf : GetCallerFrame) (stack_memory : Option StackMemory)
    (modules : List MinidumpModule) (symbol_provider : SymbolProviderModel) :
    Nat → Option StackFrame → StackFrame → List StackFrame
  | 0, _, frame => [fill_source_line_info frame modules symbol_provider]
  | fuel + 1, grand_callee, frame =>
    match gcf (fill_source_line_info frame modules symbol_provider)
        grand_callee stack_memory modules with
    | Option.none => [fill_source_line_info frame modules symbol_provider]
    | Option.some next =>
        fill_source_line_info frame modules symbol_provider ::
          walkFrames gcf stack_memory modules symbol_provider fuel
            (Option.some (fill_source_line_info frame modules symbol_provider))
            next

/-- The function `walk_stack(maybe_context, stack_memory, modules, symbol_provider)` from
`stackwalker/mod.rs`: with no context the stack is empty with
`info = MissingContext`; otherwise the seed frame is built from the context
with `trust = Context` and the frame loop runs, `info = Ok`. Thread id and
name are filled by the caller. -/
def walk_stack (gcf : GetCallerFrame) (fuel : Nat)
    (maybe_context : Option MinidumpContext)
    (stack_memory : Option StackMemory) (modules : List MinidumpModule)
    (symbol_provider : SymbolProviderModel) : CallStack :=
  match maybe_context with
  | Option.some ctx =>
      { frames :=
          walkFrames gcf stack_memory modules symbol_provider fuel Option.none
            (StackFrame.from_context ctx FrameTrust.context)
        info := CallStackInfo.ok
        thread_id := 0
        thread_name := Option.none
        last_error_value := Option.none }
  | Option.none =>
      { frames := []
        info := CallStackInfo.missingContext
        thread_id := 0
        thread_name := Option.none
        last_error_value := Option.none }

/-- A thread record from the thread-list stream, with what the processor
reads of it. `context` models `thread.context(&dump_system_info, misc_info)`
and `last_error` models `thread.last_error(cpu, &memory_list)` (both computed
by the `minidump` crate, outside the embedded sources); `stack_start` is
`raw.stack.start_of_memory_range`. -/
structure RawThread where
  thread_id : Nat
  context : Option MinidumpContext
  stack_start : Nat
  last_error : Option Nat
deriving DecidableEq, Repr

/-- The Breakpad-info stream fields the processor reads. -/
structure BreakpadInfo where
  dump_thread_id : Option Nat
  requesting_thread_id : Option Nat
deriving DecidableEq, Repr

/-- The exception stream, with `get_crashing_thread_id()`, the derived
`get_crash_reason` / `get_crash_address` values (computed by the `minidump`
crate, abstracted to their results) and
`context(&dump_system_info, misc_info)`. -/
structure ExceptionStream where
  crashing_thread_id : Nat
  crash_reason : Nat
  crash_address : Nat
  context : Option MinidumpContext
deriving DecidableEq, Repr

/-- The MISC-info stream fields the processor reads
(`raw.process_id()`, `process_create_time()`). -/
structure MiscInfoStream where
  process_id : Option Nat
  process_create_time : Option Nat
deriving DecidableEq, Repr

/-- The system-info stream, with `os`, `cpu` (abstracted to tags),
`os_parts()` split into its two results, `cpu_info()` and
`raw.number_of_processors`. -/
structure SystemInfoStream where
  os : Nat
  cpu : Nat
  os_version : String
  os_build : Option String
  cpu_info : Option String
  number_of_processors : Nat
deriving DecidableEq, Repr

/-- The processor's own `SystemInfo` struct, as assembled in processor.rs
lines 147-155. -/
structure SystemInfo where
  os : Nat
  os_version : Option String
  os_build : Option String
  cpu : Nat
  cpu_info : Option String
  cpu_microcode_version : Option Nat
  cpu_count : Nat
deriving DecidableEq, Repr

/-- The parsed evil-JSON side channel (`evil::handle_evil`, outside the
embedded sources): thread names and certificate info. -/
structure Evil where
  thread_names : List (Nat × String)
  certs : List (String × String)
deriving DecidableEq, Repr

def Evil.default : Evil :=
  { thread_names := [], certs := [] }

/-- The options struct `ProcessorOptions`: the `evil_json` path together with the
`evil::handle_evil` file read is abstracted to the parsed result
(`none` models both an absent path and a failed read). -/
structure ProcessorOptions where
  evil_json : Option Evil

/-- The error enum `ProcessError` from processor.rs. -/
inductive ProcessError where
  | minidumpReadError
  | unknownError
  | missingSystemInfo
  | missingThreadList
deriving DecidableEq, Repr

/-- A minidump, presented as the result of `get_stream` for each stream type
the processor requests (`none` models any `get_stream` error, whose kind the
processor discards), plus the header timestamp and the unknown/unimplemented
stream inventories. -/
structure Dump where
  time_date_stamp : Nat
  thread_list : Option (List RawThread)
  thread_names : Option (List (Nat × String))
  system_info : Option SystemInfoStream
  linux_lsb_release : Option (List (String × String))
  linux_cpu_info : Option (List (String × String))
  mac_crash_info : Option (List String)
  misc_info : Option MiscInfoStream
  breakpad_info : Option BreakpadInfo
  exception : Option ExceptionStream
  module_list : Option (List MinidumpModule)
  unloaded_module_list : Option (List UnloadedModule)
  memory_list : Option (List StackMemory)
  unknown_streams : List Nat
  unimplemented_streams : List Nat

/-- The lookup `MinidumpMemoryList::memory_at_address` (from the `minidump` crate,
outside the embedded sources, modelled from the spec's memory-range lookup):
the region whose interval contains the address. `thread.stack_memory(&list)`
is this lookup at the thread's stack start. -/
def memory_at_address (memory_list : List StackMemory) (addr : Nat) :
    Option StackMemory :=
  memory_list.find? (fun m => m.base ≤ addr && addr < m.base + m.size)

/-- Insertion into the `BTreeMap<String, BTreeSet<u64>>` of unloaded-module
offsets: add `off` to the set stored under `name` (the B-tree orderings are
not modelled; the claims only quantify over membership). -/
def insertOffset (offsets : List (String × List Nat)) (name : String)
    (off : Nat) : List (String × List Nat) :=
  match offsets with
  | [] => [(name, [off])]
  | (n, os) :: rest =>
      if n = name then
        (n, if off ∈ os then os else os ++ [off]) :: rest
      else
        (n, os) :: insertOffset rest name off

/-- The unloaded-module annotation of processor.rs lines 247-263: a frame
without a loaded module gets, for every unloaded module covering its
instruction, the offset `instruction - base_of_image` recorded under the
module's name (the map is assigned even when empty). -/
def recordUnloaded (unloaded : List UnloadedModule) (frame : StackFrame) :
    StackFrame :=
  if frame.module.isNone then
    let offsets :=
      (modules_at_address unloaded frame.instruction).foldl
        (fun acc u => insertOffset acc u.name (frame.instruction - u.base_of_image))
        []
    { frame with unloaded_modules := offsets }
  else
    frame

/-- State threaded through the processor's thread loop. -/
structure ThreadLoopState where
  threads : List CallStack
  requesting_thread : Option Nat
deriving DecidableEq, Repr

/-- The `CallStack` pushed by one iteration of the thread loop of
`process_minidump_with_options` (processor.rs lines 218-274) for the thread
at `it.1`:
1. a thread whose id equals the dump thread id (`dump_thread_id.is_some() &&
   dump_thread_id.unwrap() == id`, i.e. equality with `Some(id)`) is skipped
   with `CallStack::with_info(id, DumpThreadSkipped)`;
2. the requesting thread (exception crashing id, else Breakpad requesting id)
   is seeded from the exception context when available, every other thread
   from its own context;
3. the stack memory at the thread's stack start is fetched, `walk_stack` runs,
   and the resulting frames without a loaded module get unloaded-module
   annotations; thread id, name and last-error value are attached. -/
def threadStack (gcf : GetCallerFrame) (fuel : Nat)
    (symbol_provider : SymbolProviderModel) (modules : List MinidumpModule)
    (unloaded_modules : List UnloadedModule) (memory_list : List StackMemory)
    (thread_names : List (Nat × String)) (evil : Evil)
    (dump_thread_id crashing_thread_id requesting_thread_id : Option Nat)
    (exception_context : Option MinidumpContext)
    (it : Nat × RawThread) : CallStack :=
  let thread := it.2
  let id := thread.thread_id
  if dump_thread_id = Option.some id then
    CallStack.with_info id CallStackInfo.dumpThreadSkipped
  else
    let thread_context := thread.context
    let isRequesting :=
      ((crashing_thread_id.or requesting_thread_id).map
        (fun tid => tid == id)).getD false
    let context :=
      if isRequesting then exception_context.or thread_context
      else thread_context
    let stack_mem := memory_at_address memory_list thread.stack_start
    let stack := walk_stack gcf fuel context stack_mem modules symbol_provider
    let stack := { stack with thread_id := id }
    let stack :=
      { stack with
        frames := stack.frames.map (recordUnloaded unloaded_modules) }
    let name := (thread_names.lookup id).or (evil.thread_names.lookup id)
    { stack with thread_name := name, last_error_value := thread.last_error }

/-- The `requesting_thread` update of the same loop iteration: a skipped
thread leaves it unchanged; otherwise a thread matched by the crashing id
(else the Breakpad requesting id) records its index. -/
def threadRequestingStep
    (dump_thread_id crashing_thread_id requesting_thread_id : Option Nat)
    (prev : Option Nat) (it : Nat × RawThread) : Option Nat :=
  if dump_thread_id = Option.some it.2.thread_id then
    prev
  else if ((crashing_thread_id.or requesting_thread_id).map
      (fun tid => tid == it.2.thread_id)).getD false then
    Option.some it.1
  else
    prev

/-- One iteration of the thread loop: push the thread's `CallStack` and
update the requesting-thread index. -/
def processThread (gcf : GetCallerFrame) (fuel : Nat)
    (symbol_provider : SymbolProviderModel) (modules : List MinidumpModule)
    (unloaded_modules : List UnloadedModule) (memory_list : List StackMemory)
    (thread_names : List (Nat × String)) (evil : Evil)
    (dump_thread_id crashing_thread_id requesting_thread_id : Option Nat)
    (exception_context : Option MinidumpContext) (st : ThreadLoopState)
    (it : Nat × RawThread) : ThreadLoopState :=
  { threads :=
      st.threads ++
        [threadStack gcf fuel symbol_provider modules unloaded_modules
          memory_list thread_names evil dump_thread_id crashing_thread_id
          requesting_thread_id exception_context it]
    requesting_thread :=
      threadRequestingStep dump_thread_id crashing_thread_id
        requesting_thread_id st.requesting_thread it }

/-- The final report, with the fields of `ProcessState` the processor
assembles (processor.rs lines 283-301). -/
structure ProcessState where
  process_id : Option Nat
  time : Nat
  process_create_time : Option Nat
  cert_info : List (String × String)
  crash_reason : Option Nat
  crash_address : Option Nat
  assertion : Option Nat
  requesting_thread : Option Nat
  system_info : SystemInfo
  linux_standard_base : Option LinuxStandardBase
  mac_crash_info : Option (List String)
  threads : List CallStack
  modules : List MinidumpModule
  unloaded_modules : List UnloadedModule
  unknown_streams : List Nat
  unimplemented_streams : List Nat
  symbol_stats : Nat

/-- The entry point `process_minidump_with_options(dump, symbol_provider, options)` from
processor.rs: the thread-list and system-info streams are required (their
absence is the corresponding `ProcessError`); every other stream degrades to
an empty or default value; the thread loop produces one `CallStack` per
thread and tracks the requesting thread; the report is assembled from the
derived values. `gcf` and `fuel` stand for the per-architecture unwinders
reached through `walk_stack` (outside the embedded sources). -/
def process_minidump_with_options (gcf : GetCallerFrame) (fuel : Nat)
    (dump : Dump) (symbol_provider : SymbolProviderModel)
    (options : ProcessorOptions) : Except ProcessError ProcessState :=
  match dump.thread_list with
  | Option.none => Except.error ProcessError.missingThreadList
  | Option.some thread_list =>
    let thread_names := dump.thread_names.getD []
    match dump.system_info with
    | Option.none => Except.error ProcessError.missingSystemInfo
    | Option.some dump_system_info =>
      let linux_cpu_info := dump.linux_cpu_info.getD []
      let cpu_microcode_version := extractMicrocode linux_cpu_info
      let linux_standard_base := dump.linux_lsb_release.map parseLsb
      let system_info : SystemInfo :=
        { os := dump_system_info.os
          os_version := Option.some dump_system_info.os_version
          os_build := dump_system_info.os_build
          cpu := dump_system_info.cpu
          cpu_info := dump_system_info.cpu_info
          cpu_microcode_version := cpu_microcode_version
          cpu_count := dump_system_info.number_of_processors }
      let misc_info := dump.misc_info
      let process_id := misc_info.bind (fun m => m.process_id)
      let process_create_time := misc_info.bind (fun m => m.process_create_time)
      let dump_thread_id := dump.breakpad_info.bind (fun b => b.dump_thread_id)
      let requesting_thread_id :=
        dump.breakpad_info.bind (fun b => b.requesting_thread_id)
      let exception_stream := dump.exception
      let crash_reason := exception_stream.map (fun e => e.crash_reason)
      let crash_address := exception_stream.map (fun e => e.crash_address)
      let crashing_thread_id :=
        exception_stream.map (fun e => e.crashing_thread_id)
      let exception_context := exception_stream.bind (fun e => e.context)
      let assertion := Option.none
      let modules := dump.module_list.getD []
      let unloaded_modules := dump.unloaded_module_list.getD []
      let memory_list := dump.memory_list.getD []
      let evil := options.evil_json.getD Evil.default
      let final :=
        thread_list.enum.foldl
          (processThread gcf fuel symbol_provider modules unloaded_modules
            memory_list thread_names evil dump_thread_id crashing_thread_id
            requesting_thread_id exception_context)
          { threads := [], requesting_thread := Option.none }
      Except.ok
        { process_id := process_id
          time := dump.time_date_stamp
          process_create_time := process_create_time
          cert_info := evil.certs
          crash_reason := crash_reason
          crash_address := crash_address
          assertion := assertion
          requesting_thread := final.requesting_thread
          system_info := system_info
          linux_standard_base := linux_standard_base
          mac_crash_info := dump.mac_crash_info
          threads := final.threads
          modules := modules
          unloaded_modules := unloaded_modules
          unknown_streams := dump.unknown_streams
          unimplemented_streams := dump.unimplemented_streams
          symbol_stats := symbol_provider.stats }

/-! ## Helper lemmas -/

theorem applySymCall_trust (frame : StackFrame) (call : SymCall) :
    (applySymCall frame call).trust = frame.trust := by
  cases call <;> rfl

theorem applySymCall_context (frame : StackFrame) (call : SymCall) :
    (applySymCall frame call).context = frame.context := by
  cases call <;> rfl

theorem applySymCall_instruction (frame : StackFrame) (call : SymCall) :
    (applySymCall frame call).instruction = frame.instruction := by
  cases call <;> rfl

theorem applySymCall_module (frame : StackFrame) (call : SymCall) :
    (applySymCall frame call).module = frame.module := by
  cases call <;> rfl

theorem foldl_applySymCall_trust (calls : List SymCall) (frame : StackFrame) :
    (calls.foldl applySymCall frame).trust = frame.trust := by
  induction calls generalizing frame with
  | nil => rfl
  | cons c cs ih => rw [List.foldl_cons, ih, applySymCall_trust]

theorem foldl_applySymCall_context (calls : List SymCall) (frame : StackFrame) :
    (calls.foldl applySymCall frame).context = frame.context := by
  induction calls generalizing frame with
  | nil => rfl
  | cons c cs ih => rw [List.foldl_cons, ih, applySymCall_context]

theorem foldl_applySymCall_instruction (calls : List SymCall) (frame : StackFrame) :
    (calls.foldl applySymCall frame).instruction = frame.instruction := by
  induction calls generalizing frame with
  | nil => rfl
  | cons c cs ih => rw [List.foldl_cons, ih, applySymCall_instruction]

theorem foldl_applySymCall_module (calls : List SymCall) (frame : StackFrame) :
    (calls.foldl applySymCall frame).module = frame.module := by
  induction calls generalizing frame with
  | nil => rfl
  | cons c cs ih => rw [List.foldl_cons, ih, applySymCall_module]

theorem fill_source_line_info_trust (frame : StackFrame)
    (modules : List MinidumpModule) (sp : SymbolProviderModel) :
    (fill_source_line_info frame modules sp).trust = frame.trust := by
  unfold fill_source_line_info
  cases module_at_address modules frame.instruction with
  | none => rfl
  | some m => exact foldl_applySymCall_trust _ _

theorem fill_source_line_info_context (frame : StackFrame)
    (modules : List MinidumpModule) (sp : SymbolProviderModel) :
    (fill_source_line_info frame modules sp).context = frame.context := by
  unfold fill_source_line_info
  cases module_at_address modules frame.instruction with
  | none => rfl
  | some m => exact foldl_applySymCall_context _ _

theorem fill_source_line_info_instruction (frame : StackFrame)
    (modules : List MinidumpModule) (sp : SymbolProviderModel) :
    (fill_source_line_info frame modules sp).instruction = frame.instruction := by
  unfold fill_source_line_info
  cases module_at_address modules frame.instruction with
  | none => rfl
  | some m => exact foldl_applySymCall_instruction _ _

theorem fill_source_line_info_module_some (frame : StackFrame)
    (modules : List MinidumpModule) (sp : SymbolProviderModel)
    (m : MinidumpModule)
    (h : module_at_address modules frame.instruction = Option.some m) :
    (fill_source_line_info frame modules sp).module = Option.some m := by
  unfold fill_source_line_info
  rw [h]
  exact foldl_applySymCall_module _ _

theorem fill_source_line_info_no_module (frame : StackFrame)
    (modules : List MinidumpModule) (sp : SymbolProviderModel)
    (h : module_at_address modules frame.instruction = Option.none) :
    fill_source_line_info frame modules sp = frame := by
  unfold fill_source_line_info
  rw [h]

theorem recordUnloaded_context (unloaded : List UnloadedModule)
    (frame : StackFrame) :
    (recordUnloaded unloaded frame).context = frame.context := by
  unfold recordUnloaded
  split <;> rfl

theorem recordUnloaded_trust (unloaded : List UnloadedModule)
    (frame : StackFrame) :
    (recordUnloaded unloaded frame).trust = frame.trust := by
  unfold recordUnloaded
  split <;> rfl

theorem recordUnloaded_instruction (unloaded : List UnloadedModule)
    (frame : StackFrame) :
    (recordUnloaded unloaded frame).instruction = frame.instruction := by
  unfold recordUnloaded
  split <;> rfl

theorem recordUnloaded_module (unloaded : List UnloadedModule)
    (frame : StackFrame) :
    (recordUnloaded unloaded frame).module = frame.module := by
  unfold recordUnloaded
  split <;> rfl

theorem walkFrames_head? (gcf : GetCallerFrame) (sm : Option StackMemory)
    (ms : List MinidumpModule) (sp : SymbolProviderModel) (fuel : Nat)
    (grand : Option StackFrame) (frame : StackFrame) :
    (walkFrames gcf sm ms sp fuel grand frame).head? =
      Option.some (fill_source_line_info frame ms sp) := by
  cases fuel with
  | zero => rfl
  | succ n =>
      unfold walkFrames
      cases gcf (fill_source_line_info frame ms sp) grand sm ms <;> rfl

theorem walkFrames_length_pos (gcf : GetCallerFrame) (sm : Option StackMemory)
    (ms : List MinidumpModule) (sp : SymbolProviderModel) (fuel : Nat)
    (grand : Option StackFrame) (frame : StackFrame) :
    0 < (walkFrames gcf sm ms sp fuel grand frame).length := by
  cases fuel with
  | zero => simp [walkFrames]
  | succ n =>
      unfold walkFrames
      cases gcf (fill_source_line_info frame ms sp) grand sm ms <;> simp

theorem mem_walkFrames (gcf : GetCallerFrame) (sm : Option StackMemory)
    (ms : List MinidumpModule) (sp : SymbolProviderModel) :
    ∀ (fuel : Nat) (grand : Option StackFrame) (frame0 f : StackFrame),
      f ∈ walkFrames gcf sm ms sp fuel grand frame0 →
      ∃ g : StackFrame,
        (g = frame0 ∨ ∃ c gc, gcf c gc sm ms = Option.some g) ∧
        f = fill_source_line_info g ms sp := by
  intro fuel
  induction fuel with
  | zero =>
      intro grand frame0 f hf
      simp only [walkFrames, List.mem_singleton] at hf
      exact ⟨frame0, Or.inl rfl, hf⟩
  | succ n ih =>
      intro grand frame0 f hf
      unfold walkFrames at hf
      cases hg : gcf (fill_source_line_info frame0 ms sp) grand sm ms with
      | none =>
          rw [hg] at hf
          simp only [List.mem_singleton] at hf
          exact ⟨frame0, Or.inl rfl, hf⟩
      | some next =>
          rw [hg] at hf
          rcases List.mem_cons.mp hf with h | h
          · exact ⟨frame0, Or.inl rfl, h⟩
          · rcases ih (Option.some (fill_source_line_info frame0 ms sp)) next f h with
              ⟨g, hg1 | hg2, hfill⟩
            · exact ⟨g, Or.inr ⟨_, _, hg1 ▸ hg⟩, hfill⟩
            · exact ⟨g, Or.inr hg2, hfill⟩

/-! ## Claim theorems: the stack walker -/

/-- C4: `walk_stack` with `maybe_context = None` returns a `CallStack` with
`info = MissingContext` and no frames; with a context it returns
`info = Ok`, at least one frame, and a first frame with `trust = Context`. -/
theorem walk_stack_context_behavior (gcf : GetCallerFrame) (fuel : Nat)
    (stack_memory : Option StackMemory) (modules : List MinidumpModule)
    (symbol_provider : SymbolProviderModel) :
    ((walk_stack gcf fuel Option.none stack_memory modules
        symbol_provider).info = CallStackInfo.missingContext ∧
      (walk_stack gcf fuel Option.none stack_memory modules
        symbol_provider).frames = []) ∧
    ∀ ctx : MinidumpContext,
      (walk_stack gcf fuel (Option.some ctx) stack_memory modules
          symbol_provider).info = CallStackInfo.ok ∧
      0 < (walk_stack gcf fuel (Option.some ctx) stack_memory modules
          symbol_provider).frames.length ∧
      ((walk_stack gcf fuel (Option.some ctx) stack_memory modules
          symbol_provider).frames.head?.map StackFrame.trust) =
        Option.some FrameTrust.context := by
  refine ⟨⟨rfl, rfl⟩, ?_⟩
  intro ctx
  refine ⟨rfl, walkFrames_length_pos _ _ _ _ _ _ _, ?_⟩
  show ((walkFrames gcf stack_memory modules symbol_provider fuel Option.none
      (StackFrame.from_context ctx FrameTrust.context)).head?.map
      StackFrame.trust) = Option.some FrameTrust.context
  rw [walkFrames_head?, Option.map_some', fill_source_line_info_trust]
  rfl

/-- C9: `instruction_seems_valid_by_symbols` subtracts 1 from its instruction
argument before any module lookup, so the subtraction underflows (a panic in
debug builds, modelled as `none`) exactly at `instruction = 0`, for every
module list and provider — no guard excludes that input — while every
`instruction ≥ 1` is handled. -/
theorem instruction_probe_underflow_at_zero (modules : List MinidumpModule)
    (symbol_provider : SymbolProviderModel) :
    instruction_seems_valid_by_symbols 0 modules symbol_provider =
        Option.none ∧
    ∀ instruction : Nat, 1 ≤ instruction →
      (instruction_seems_valid_by_symbols instruction modules
          symbol_provider).isSome := by
  constructor
  · rfl
  · intro instruction h
    unfold instruction_seems_valid_by_symbols
    rw [if_neg (by omega)]
    cases module_at_address modules (instruction - 1) with
    | none => rfl
    | some m =>
        dsimp only
        cases hres : symbol_provider.fillSymbol m (instruction - 1) with
        | mk calls ok => cases ok <;> rfl

/-- Witness for C9 at `instruction = 1` with an empty module list. -/
theorem instruction_probe_underflow_at_zero_witness :
    instruction_seems_valid_by_symbols 0 []
        { fillSymbol := fun _ _ => ([], false), stats := 0 } = Option.none ∧
    (instruction_seems_valid_by_symbols 1 []
        { fillSymbol := fun _ _ => ([], false), stats := 0 }).isSome :=
  ⟨(instruction_probe_underflow_at_zero []
      { fillSymbol := fun _ _ => ([], false), stats := 0 }).1,
    (instruction_probe_underflow_at_zero []
      { fillSymbol := fun _ _ => ([], false), stats := 0 }).2 1 (by decide)⟩

/-- C6: for `instruction ≥ 1` (see C9 for `instruction = 0`),
`instruction_seems_valid_by_symbols` returns `false` when no module covers
`instruction - 1`; when a module covers it and `fill_symbol` succeeds it
returns `true` exactly when the provider's callbacks left a non-empty
function name on the dummy frame; and when `fill_symbol` errors it returns
`true`. -/
theorem instruction_validity_oracle (instruction : Nat)
    (modules : List MinidumpModule) (symbol_provider : SymbolProviderModel)
    (h : 1 ≤ instruction) :
    (module_at_address modules (instruction - 1) = Option.none →
      instruction_seems_valid_by_symbols instruction modules symbol_provider =
        Option.some false) ∧
    ∀ m : MinidumpModule,
      module_at_address modules (instruction - 1) = Option.some m →
      ((symbol_provider.fillSymbol m (instruction - 1)).2 = true →
        (instruction_seems_valid_by_symbols instruction modules
            symbol_provider = Option.some true ↔
          dummyHasName (symbol_provider.fillSymbol m (instruction - 1)).1 =
            true)) ∧
      ((symbol_provider.fillSymbol m (instruction - 1)).2 = false →
        instruction_seems_valid_by_symbols instruction modules
            symbol_provider = Option.some true) := by
  constructor
  · intro hm
    unfold instruction_seems_valid_by_symbols
    rw [if_neg (by omega), hm]
  · intro m hm
    unfold instruction_seems_valid_by_symbols
    rw [if_neg (by omega), hm]
    dsimp only
    cases hres : symbol_provider.fillSymbol m (instruction - 1) with
    | mk calls ok =>
        cases ok with
        | false => exact ⟨fun hok => by simp at hok, fun _ => rfl⟩
        | true =>
            refine ⟨fun _ => ?_, fun hok => by simp at hok⟩
            dsimp only
            constructor
            · intro hsome
              cases hname : dummyHasName calls with
              | true => rfl
              | false => rw [hname] at hsome; exact absurd hsome (by simp)
            · intro hname
              rw [hname]

/-- Witness for C6 on a module `[100, 110)` probed at `instruction = 105`:
no module ⇒ `false`; success with function name `"main"` ⇒ `true`; success
with an empty name ⇒ not `true`; provider error ⇒ `true`. -/
theorem instruction_validity_oracle_witness :
    instruction_seems_valid_by_symbols 105 []
        { fillSymbol := fun _ _ => ([], false), stats := 0 } =
      Option.some false ∧
    instruction_seems_valid_by_symbols 105
        [{ base_of_image := 100, size_of_image := 10, name := "m" }]
        { fillSymbol := fun _ _ => ([SymCall.setFunction "main" 100 0], true),
          stats := 0 } = Option.some true ∧
    ¬ (instruction_seems_valid_by_symbols 105
        [{ base_of_image := 100, size_of_image := 10, name := "m" }]
        { fillSymbol := fun _ _ => ([SymCall.setFunction "" 100 0], true),
          stats := 0 } = Option.some true) ∧
    instruction_seems_valid_by_symbols 105
        [{ base_of_image := 100, size_of_image := 10, name := "m" }]
        { fillSymbol := fun _ _ => ([], false), stats := 0 } =
      Option.some true := by
  refine ⟨?_, ?_, ?_, ?_⟩
  · exact (instruction_validity_oracle 105 []
      { fillSymbol := fun _ _ => ([], false), stats := 0 } (by decide)).1 rfl
  · exact (((instruction_validity_oracle 105
      [{ base_of_image := 100, size_of_image := 10, name := "m" }]
      { fillSymbol := fun _ _ => ([SymCall.setFunction "main" 100 0], true),
        stats := 0 } (by decide)).2 _ rfl).1 rfl).mpr (by decide)
  · intro hsome
    have := (((instruction_validity_oracle 105
      [{ base_of_image := 100, size_of_image := 10, name := "m" }]
      { fillSymbol := fun _ _ => ([SymCall.setFunction "" 100 0], true),
        stats := 0 } (by decide)).2 _ rfl).1 rfl).mp hsome
    exact absurd this (by decide)
  · exact ((instruction_validity_oracle 105
      [{ base_of_image := 100, size_of_image := 10, name := "m" }]
      { fillSymbol := fun _ _ => ([], false), stats := 0 } (by decide)).2 _
        rfl).2 rfl

/-- C8: for every partially built `LinuxStandardBase` and every value, the
`DISTRIB_*` spelling and the `/etc/os-release` spelling of each key update the
same field with the value, so the two spellings yield equal
`LinuxStandardBase` results. -/
theorem lsb_spellings_agree (lsb : LinuxStandardBase) (v : String) :
    (lsbStep lsb ("DISTRIB_ID", v) = lsbStep lsb ("ID", v) ∧
      (lsbStep lsb ("ID", v)).id = v) ∧
    (lsbStep lsb ("DISTRIB_RELEASE", v) = lsbStep lsb ("VERSION_ID", v) ∧
      (lsbStep lsb ("VERSION_ID", v)).release = v) ∧
    (lsbStep lsb ("DISTRIB_CODENAME", v) = lsbStep lsb ("VERSION_CODENAME", v) ∧
      (lsbStep lsb ("VERSION_CODENAME", v)).codename = v) ∧
    (lsbStep lsb ("DISTRIB_DESCRIPTION", v) = lsbStep lsb ("PRETTY_NAME", v) ∧
      (lsbStep lsb ("PRETTY_NAME", v)).description = v) := by
  unfold lsbStep
  refine ⟨⟨?_, ?_⟩, ⟨?_, ?_⟩, ⟨?_, ?_⟩, ⟨?_, ?_⟩⟩ <;> simp

theorem parseHexDigits_eq_some (ds : List Char) (n : Nat) :
    parseHexDigits ds = Option.some n ↔
      ds ≠ [] ∧ ds.all isHexDigitChar = true ∧ hexValue ds = n ∧ n < 2 ^ 64 := by
  unfold parseHexDigits
  split_ifs with h1 h2 h3
  · simp [List.isEmpty_iff.mp h1]
  · constructor
    · intro hs
      refine ⟨by simpa using h1, h2, ?_, ?_⟩
      · exact Option.some_inj.mp hs
      · rw [← Option.some_inj.mp hs]; exact h3
    · intro ⟨_, _, hv, _⟩
      rw [hv]
  · constructor
    · intro hs; exact absurd hs (by simp)
    · intro ⟨_, _, hv, hn⟩
      exact absurd (hv ▸ hn) h3
  · constructor
    · intro hs; exact absurd hs (by simp)
    · intro ⟨_, hall, _, _⟩
      exact absurd hall h2

theorem u64_from_str_radix_16_eq_some (s : String) (n : Nat) :
    u64_from_str_radix_16 s = Option.some n ↔
      ∃ ds : List Char, (s.data = ds ∨ s.data = '+' :: ds) ∧ ds ≠ [] ∧
        ds.all isHexDigitChar = true ∧ hexValue ds = n ∧ n < 2 ^ 64 := by
  unfold u64_from_str_radix_16
  cases h : s.data with
  | nil =>
      constructor
      · intro hs; exact absurd hs (by simp)
      · intro ⟨ds, hds, hne, _, _, _⟩
        rcases hds with hds | hds
        · exact absurd hds.symm hne
        · exact List.noConfusion hds
  | cons c cs =>
      dsimp only
      by_cases hc : c = '+'
      · subst hc
        rw [if_pos rfl, parseHexDigits_eq_some]
        constructor
        · intro ⟨hne, hall, hv, hn⟩
          exact ⟨cs, Or.inr rfl, hne, hall, hv, hn⟩
        · intro ⟨ds, hds, hne, hall, hv, hn⟩
          rcases hds with hds | hds
          · rw [← hds] at hall
            simp only [List.all_cons] at hall
            exact absurd hall (by simp [isHexDigitChar, hexVal?])
          · cases hds
            exact ⟨hne, hall, hv, hn⟩
      · rw [if_neg hc, parseHexDigits_eq_some]
        constructor
        · intro ⟨_, hall, hv, hn⟩
          exact ⟨c :: cs, Or.inl rfl, by simp, hall, hv, hn⟩
        · intro ⟨ds, hds, hne, hall, hv, hn⟩
          rcases hds with hds | hds
          · cases hds
            exact ⟨by simp, hall, hv, hn⟩
          · exact absurd (List.head_eq_of_cons_eq hds) hc

theorem stripPrefix0x_eq_some (s r : String) :
    stripPrefix0x s = Option.some r ↔ s.data = '0' :: 'x' :: r.data := by
  unfold stripPrefix0x
  cases h : s.data with
  | nil => simp
  | cons c0 rest0 =>
      cases rest0 with
      | nil => simp
      | cons c1 rest =>
          dsimp only
          by_cases h01 : c0 = '0' ∧ c1 = 'x'
          · rw [if_pos h01]
            obtain ⟨h0, h1⟩ := h01
            subst h0; subst h1
            constructor
            · intro hr
              rw [← Option.some_inj.mp hr]
            · intro hr
              have hrest : rest = r.data := by
                injection hr with h0 htl
                injection htl with h1 h2
              rw [hrest]
          · rw [if_neg h01]
            constructor
            · intro hr; exact absurd hr (by simp)
            · intro hr
              obtain ⟨h0, htl⟩ := List.cons_eq_cons.mp hr
              obtain ⟨h1, -⟩ := List.cons_eq_cons.mp htl
              exact absurd ⟨h0, h1⟩ h01

/-- C7 counterexample: Rust's `from_str_radix` accepts a leading `+` sign for
unsigned integers, so the microcode value `"0x+a"` — whose remainder after
`0x` is not a sequence of hex digits — still parses to `Some(10)`, against
the claim that the remainder must consist of valid hexadecimal digits. -/
theorem cpu_microcode_plus_sign_cex :
    extractMicrocode [("microcode", "0x+a")] = Option.some 10 ∧
    List.all (String.data "+a") isHexDigitChar = false := by
  constructor
  · decide
  · decide

/-- C7 (amended): `cpu_microcode_version = Some n` exactly when the value of
the first `microcode` key is `0x` followed by an optional `+` sign and a
non-empty run of hexadecimal digits denoting `n`, with `n < 2^64`; an absent
key, a missing `0x` prefix, or any other remainder gives `None`. -/
theorem cpu_microcode_version_characterization
    (linux_cpu_info : List (String × String)) (n : Nat) :
    extractMicrocode linux_cpu_info = Option.some n ↔
      ∃ p : String × String,
        linux_cpu_info.find? (fun kv => kv.1 = "microcode") = Option.some p ∧
        ∃ ds : List Char,
          (p.2.data = '0' :: 'x' :: ds ∨ p.2.data = '0' :: 'x' :: '+' :: ds) ∧
          ds ≠ [] ∧ ds.all isHexDigitChar = true ∧ hexValue ds = n ∧
          n < 2 ^ 64 := by
  unfold extractMicrocode
  cases h : linux_cpu_info.find? (fun kv => kv.1 = "microcode") with
  | none =>
      constructor
      · intro hb; exact absurd hb (by simp)
      · intro ⟨p, hp, _⟩; exact absurd hp (by simp)
  | some kv =>
      constructor
      · intro hb
        dsimp only at hb
        cases hstrip : stripPrefix0x kv.2 with
        | none => rw [hstrip] at hb; exact absurd hb (by simp)
        | some r =>
            rw [hstrip, Option.some_bind] at hb
            obtain ⟨ds, hds, hne, hall, hv, hn⟩ :=
              (u64_from_str_radix_16_eq_some r n).mp hb
            have hdata := (stripPrefix0x_eq_some kv.2 r).mp hstrip
            refine ⟨kv, rfl, ds, ?_, hne, hall, hv, hn⟩
            rcases hds with hds | hds
            · exact Or.inl (by rw [hdata, hds])
            · exact Or.inr (by rw [hdata, hds])
      · intro ⟨p, hp, ds, hshape, hne, hall, hv, hn⟩
        dsimp only
        obtain rfl : kv = p := Option.some_inj.mp hp
        rcases hshape with hs | hs
        · have hstrip : stripPrefix0x kv.2 = Option.some (String.mk ds) :=
            (stripPrefix0x_eq_some kv.2 (String.mk ds)).mpr (by rw [hs])
          rw [hstrip, Option.some_bind]
          exact (u64_from_str_radix_16_eq_some _ n).mpr
            ⟨ds, Or.inl rfl, hne, hall, hv, hn⟩
        · have hstrip :
              stripPrefix0x kv.2 = Option.some (String.mk ('+' :: ds)) :=
            (stripPrefix0x_eq_some kv.2 (String.mk ('+' :: ds))).mpr
              (by rw [hs])
          rw [hstrip, Option.some_bind]
          exact (u64_from_str_radix_16_eq_some _ n).mpr
            ⟨ds, Or.inr rfl, hne, hall, hv, hn⟩

/-- Abbreviation for the fully applied loop body. -/
def loopBody (gcf : GetCallerFrame) (fuel : Nat)
    (sp : SymbolProviderModel) (modules : List MinidumpModule)
    (unloaded : List UnloadedModule) (mem : List StackMemory)
    (tnames : List (Nat × String)) (evil : Evil)
    (dtid ctid rtid : Option Nat) (excCtx : Option MinidumpContext) :
    ThreadLoopState → Nat × RawThread → ThreadLoopState :=
  processThread gcf fuel sp modules unloaded mem tnames evil dtid ctid rtid
    excCtx

theorem foldl_processThread_threads (gcf : GetCallerFrame) (fuel : Nat)
    (sp : SymbolProviderModel) (modules : List MinidumpModule)
    (unloaded : List UnloadedModule) (mem : List StackMemory)
    (tnames : List (Nat × String)) (evil : Evil)
    (dtid ctid rtid : Option Nat) (excCtx : Option MinidumpContext)
    (l : List (Nat × RawThread)) (st : ThreadLoopState) :
    (l.foldl
        (processThread gcf fuel sp modules unloaded mem tnames evil dtid ctid
          rtid excCtx) st).threads =
      st.threads ++
        l.map
          (threadStack gcf fuel sp modules unloaded mem tnames evil dtid ctid
            rtid excCtx) := by
  induction l generalizing st with
  | nil => simp
  | cons a l ih =>
      rw [List.foldl_cons, ih, List.map_cons]
      show (st.threads ++ [_]) ++ _ = _
      rw [List.append_assoc]
      rfl

theorem foldl_processThread_requesting (gcf : GetCallerFrame) (fuel : Nat)
    (sp : SymbolProviderModel) (modules : List MinidumpModule)
    (unloaded : List UnloadedModule) (mem : List StackMemory)
    (tnames : List (Nat × String)) (evil : Evil)
    (dtid ctid rtid : Option Nat) (excCtx : Option MinidumpContext)
    (l : List (Nat × RawThread)) (st : ThreadLoopState) :
    (l.foldl
        (processThread gcf fuel sp modules unloaded mem tnames evil dtid ctid
          rtid excCtx) st).requesting_thread =
      l.foldl (threadRequestingStep dtid ctid rtid) st.requesting_thread := by
  induction l generalizing st with
  | nil => rfl
  | cons a l ih => rw [List.foldl_cons, List.foldl_cons, ih]; rfl

/-- A loop iteration records the requesting-thread index exactly when the
thread is not the dump thread and the preferred id (crashing, else Breakpad
requesting) equals its thread id. -/
def requestingHit (dtid ctid rtid : Option Nat) (it : Nat × RawThread) :
    Prop :=
  ¬ dtid = Option.some it.2.thread_id ∧
    ctid.or rtid = Option.some it.2.thread_id

instance requestingHitDecidable (dtid ctid rtid : Option Nat)
    (it : Nat × RawThread) : Decidable (requestingHit dtid ctid rtid it) :=
  inferInstanceAs (Decidable (_ ∧ _))

theorem optMapBeq_getD (o : Option Nat) (id : Nat) :
    ((o.map (fun tid => tid == id)).getD false = true) ↔
      o = Option.some id := by
  cases o with
  | none => simp
  | some t => simp

theorem threadRequestingStep_eq (dtid ctid rtid : Option Nat)
    (prev : Option Nat) (it : Nat × RawThread) :
    threadRequestingStep dtid ctid rtid prev it =
      if requestingHit dtid ctid rtid it then Option.some it.1 else prev := by
  unfold threadRequestingStep requestingHit
  by_cases hd : dtid = Option.some it.2.thread_id
  · rw [if_pos hd, if_neg (fun hh => hh.1 hd)]
  · rw [if_neg hd]
    by_cases hcr : ctid.or rtid = Option.some it.2.thread_id
    · rw [if_pos ((optMapBeq_getD _ _).mpr hcr), if_pos ⟨hd, hcr⟩]
    · rw [if_neg (fun hb => hcr ((optMapBeq_getD _ _).mp hb)),
        if_neg (fun hh => hcr hh.2)]

theorem foldl_requestingStep_no_hit (dtid ctid rtid : Option Nat)
    (l : List (Nat × RawThread)) (prev : Option Nat)
    (h : ∀ it ∈ l, ¬ requestingHit dtid ctid rtid it) :
    l.foldl (threadRequestingStep dtid ctid rtid) prev = prev := by
  induction l generalizing prev with
  | nil => rfl
  | cons a l ih =>
      rw [List.foldl_cons, threadRequestingStep_eq,
        if_neg (h a (List.mem_cons_self a l))]
      exact ih prev (fun it hit => h it (List.mem_cons_of_mem a hit))

theorem foldl_requestingStep_unique (dtid ctid rtid : Option Nat)
    (l : List (Nat × RawThread)) (prev : Option Nat) (i : Nat)
    (h1 : ∀ it ∈ l, requestingHit dtid ctid rtid it → it.1 = i)
    (h2 : ∃ it ∈ l, requestingHit dtid ctid rtid it) :
    l.foldl (threadRequestingStep dtid ctid rtid) prev = Option.some i := by
  induction l generalizing prev with
  | nil => obtain ⟨it, hmem, -⟩ := h2; exact absurd hmem (List.not_mem_nil it)
  | cons a l ih =>
      rw [List.foldl_cons, threadRequestingStep_eq]
      by_cases hl : ∃ it ∈ l, requestingHit dtid ctid rtid it
      · exact ih _ (fun it hit hh => h1 it (List.mem_cons_of_mem a hit) hh) hl
      · have ha : requestingHit dtid ctid rtid a := by
          obtain ⟨it, hmem, hh⟩ := h2
          rcases List.mem_cons.mp hmem with rfl | hmem
          · exact hh
          · exact absurd ⟨it, hmem, hh⟩ hl
        rw [if_pos ha,
          foldl_requestingStep_no_hit dtid ctid rtid l _
            (fun it hit hh => hl ⟨it, hit, hh⟩)]
        rw [h1 a (List.mem_cons_self a l) ha]

/-- With both required streams present, `process_minidump_with_options`
succeeds, its `requesting_thread` is the fold of the per-thread requesting
update over the enumerated thread list, and its `threads` are the per-thread
call stacks in thread-list order. -/
theorem process_ok_spec (gcf : GetCallerFrame) (fuel : Nat) (dump : Dump)
    (symbol_provider : SymbolProviderModel) (options : ProcessorOptions)
    (threads : List RawThread) (si : SystemInfoStream)
    (htl : dump.thread_list = Option.some threads)
    (hsi : dump.system_info = Option.some si) :
    ∃ state,
      process_minidump_with_options gcf fuel dump symbol_provider options =
        Except.ok state ∧
      state.requesting_thread =
        threads.enum.foldl
          (threadRequestingStep
            (dump.breakpad_info.bind BreakpadInfo.dump_thread_id)
            (dump.exception.map ExceptionStream.crashing_thread_id)
            (dump.breakpad_info.bind BreakpadInfo.requesting_thread_id))
          Option.none ∧
      state.threads =
        threads.enum.map
          (threadStack gcf fuel symbol_provider (dump.module_list.getD [])
            (dump.unloaded_module_list.getD []) (dump.memory_list.getD [])
            (dump.thread_names.getD []) (options.evil_json.getD Evil.default)
            (dump.breakpad_info.bind BreakpadInfo.dump_thread_id)
            (dump.exception.map ExceptionStream.crashing_thread_id)
            (dump.breakpad_info.bind BreakpadInfo.requesting_thread_id)
            (dump.exception.bind ExceptionStream.context)) := by
  unfold process_minidump_with_options
  rw [htl, hsi]
  refine ⟨_, rfl, ?_, ?_⟩
  · exact foldl_processThread_requesting _ _ _ _ _ _ _ _ _ _ _ _ _ _
  · exact foldl_processThread_threads _ _ _ _ _ _ _ _ _ _ _ _ _ _

/-! ## Concrete fixtures for witnesses and counterexamples -/

/-- A dump with every stream absent. -/
def emptyDump : Dump :=
  { time_date_stamp := 0
    thread_list := Option.none
    thread_names := Option.none
    system_info := Option.none
    linux_lsb_release := Option.none
    linux_cpu_info := Option.none
    mac_crash_info := Option.none
    misc_info := Option.none
    breakpad_info := Option.none
    exception := Option.none
    module_list := Option.none
    unloaded_module_list := Option.none
    memory_list := Option.none
    unknown_streams := []
    unimplemented_streams := [] }

def sysinfo0 : SystemInfoStream :=
  { os := 0
    cpu := 0
    os_version := "10.0"
    os_build := Option.none
    cpu_info := Option.none
    number_of_processors := 1 }

def ctxT : MinidumpContext := { regs := [("pc", 4096)] }

def ctxE : MinidumpContext := { regs := [("pc", 8192)] }

def thread7 : RawThread :=
  { thread_id := 7
    context := Option.some ctxT
    stack_start := 0
    last_error := Option.none }

def thread9 : RawThread :=
  { thread_id := 9
    context := Option.some ctxT
    stack_start := 0
    last_error := Option.none }

/-- A provider with no symbols for any module. -/
def providerErr : SymbolProviderModel :=
  { fillSymbol := fun _ _ => ([], false), stats := 0 }

/-- An unwinder that never finds a caller. -/
def gcfNone : GetCallerFrame := fun _ _ _ _ => Option.none

def options0 : ProcessorOptions := { evil_json := Option.none }

/-! ## Claim theorems: the processor -/

/-- C1: `process_minidump_with_options` returns `MissingThreadList` when the
thread-list stream cannot be retrieved, `MissingSystemInfo` when the thread
list is present but the system-info stream cannot be retrieved, and whenever
both required streams are present it returns `Ok` with a `ProcessState`,
regardless of the presence of any other stream. -/
theorem required_streams_characterize_errors (gcf : GetCallerFrame)
    (fuel : Nat) (dump : Dump) (symbol_provider : SymbolProviderModel)
    (options : ProcessorOptions) :
    (dump.thread_list = Option.none →
      process_minidump_with_options gcf fuel dump symbol_provider options =
        Except.error ProcessError.missingThreadList) ∧
    (dump.thread_list.isSome → dump.system_info = Option.none →
      process_minidump_with_options gcf fuel dump symbol_provider options =
        Except.error ProcessError.missingSystemInfo) ∧
    (dump.thread_list.isSome → dump.system_info.isSome →
      ∃ state,
        process_minidump_with_options gcf fuel dump symbol_provider options =
          Except.ok state) := by
  refine ⟨?_, ?_, ?_⟩
  · intro h
    unfold process_minidump_with_options
    rw [h]
  · intro h1 h2
    obtain ⟨tl, htl⟩ := Option.isSome_iff_exists.mp h1
    unfold process_minidump_with_options
    rw [htl, h2]
  · intro h1 h2
    obtain ⟨tl, htl⟩ := Option.isSome_iff_exists.mp h1
    obtain ⟨si, hsi⟩ := Option.isSome_iff_exists.mp h2
    obtain ⟨state, hok, -, -⟩ :=
      process_ok_spec gcf fuel dump symbol_provider options tl si htl hsi
    exact ⟨state, hok⟩

/-- Witness for C1: an empty dump fails with `MissingThreadList`; adding only
a thread list fails with `MissingSystemInfo`; adding the system-info stream
as well yields a `ProcessState` even though every optional stream is absent. -/
theorem required_streams_characterize_errors_witness :
    process_minidump_with_options gcfNone 0 emptyDump providerErr options0 =
      Except.error ProcessError.missingThreadList ∧
    process_minidump_with_options gcfNone 0
        { emptyDump with thread_list := Option.some [thread7] } providerErr
        options0 = Except.error ProcessError.missingSystemInfo ∧
    ∃ state,
      process_minidump_with_options gcfNone 0
          { emptyDump with
            thread_list := Option.some [thread7]
            system_info := Option.some sysinfo0 } providerErr options0 =
        Except.ok state :=
  ⟨(required_streams_characterize_errors gcfNone 0 emptyDump providerErr
      options0).1 rfl,
   (required_streams_characterize_errors gcfNone 0
      { emptyDump with thread_list := Option.some [thread7] } providerErr
      options0).2.1 rfl rfl,
   (required_streams_characterize_errors gcfNone 0
      { emptyDump with
        thread_list := Option.some [thread7]
        system_info := Option.some sysinfo0 } providerErr options0).2.2
      rfl rfl⟩

theorem threadStack_skipped (gcf : GetCallerFrame) (fuel : Nat)
    (sp : SymbolProviderModel) (modules : List MinidumpModule)
    (unloaded : List UnloadedModule) (mem : List StackMemory)
    (tnames : List (Nat × String)) (evil : Evil)
    (dtid ctid rtid : Option Nat) (excCtx : Option MinidumpContext)
    (it : Nat × RawThread) (hskip : dtid = Option.some it.2.thread_id) :
    threadStack gcf fuel sp modules unloaded mem tnames evil dtid ctid rtid
        excCtx it =
      CallStack.with_info it.2.thread_id CallStackInfo.dumpThreadSkipped := by
  unfold threadStack
  rw [if_pos hskip]

theorem threadStack_not_skipped_frames (gcf : GetCallerFrame) (fuel : Nat)
    (sp : SymbolProviderModel) (modules : List MinidumpModule)
    (unloaded : List UnloadedModule) (mem : List StackMemory)
    (tnames : List (Nat × String)) (evil : Evil)
    (dtid ctid rtid : Option Nat) (excCtx : Option MinidumpContext)
    (it : Nat × RawThread) (hskip : ¬ dtid = Option.some it.2.thread_id) :
    (threadStack gcf fuel sp modules unloaded mem tnames evil dtid ctid rtid
        excCtx it).frames =
      (walk_stack gcf fuel
        (if ((ctid.or rtid).map
            (fun tid => tid == it.2.thread_id)).getD false then
          excCtx.or it.2.context
        else it.2.context)
        (memory_at_address mem it.2.stack_start) modules sp).frames.map
        (recordUnloaded unloaded) := by
  unfold threadStack
  rw [if_neg hskip]

theorem threadStack_dtid_irrelevant (gcf : GetCallerFrame) (fuel : Nat)
    (sp : SymbolProviderModel) (modules : List MinidumpModule)
    (unloaded : List UnloadedModule) (mem : List StackMemory)
    (tnames : List (Nat × String)) (evil : Evil)
    (dtid dtid' ctid rtid : Option Nat) (excCtx : Option MinidumpContext)
    (it : Nat × RawThread) (hskip : ¬ dtid = Option.some it.2.thread_id)
    (hskip' : ¬ dtid' = Option.some it.2.thread_id) :
    threadStack gcf fuel sp modules unloaded mem tnames evil dtid ctid rtid
        excCtx it =
      threadStack gcf fuel sp modules unloaded mem tnames evil dtid' ctid rtid
        excCtx it := by
  unfold threadStack
  rw [if_neg hskip, if_neg hskip']

/-- C2 (amended): when the exception stream reports crashing thread id `T`,
the unique thread whose id is `T` — provided it is not skipped as the dump
thread, see C10 — is recorded as `requesting_thread = Some i` for its index
`i`, and its stack walk is seeded from the exception context when that
exists, else from the thread's own context: the seed frame's registers equal
the chosen context's registers. The crashing id is preferred regardless of
the Breakpad requesting id. -/
theorem requesting_thread_selection (gcf : GetCallerFrame) (fuel : Nat)
    (dump : Dump) (symbol_provider : SymbolProviderModel)
    (options : ProcessorOptions) (threads : List RawThread)
    (si : SystemInfoStream) (exc : ExceptionStream) (i : Nat) (th : RawThread)
    (htl : dump.thread_list = Option.some threads)
    (hsi : dump.system_info = Option.some si)
    (hexc : dump.exception = Option.some exc)
    (hth : threads[i]? = Option.some th)
    (hid : th.thread_id = exc.crashing_thread_id)
    (huniq : ∀ j : Nat, ∀ th' : RawThread, threads[j]? = Option.some th' →
      th'.thread_id = exc.crashing_thread_id → j = i)
    (hdump : ¬ dump.breakpad_info.bind BreakpadInfo.dump_thread_id =
      Option.some exc.crashing_thread_id) :
    ∃ state,
      process_minidump_with_options gcf fuel dump symbol_provider options =
        Except.ok state ∧
      state.requesting_thread = Option.some i ∧
      ∀ c : MinidumpContext, exc.context.or th.context = Option.some c →
        ∃ stack, state.threads[i]? = Option.some stack ∧
          stack.frames.head?.map (fun f => f.context.regs) =
            Option.some c.regs := by
  obtain ⟨state, hok, hreq, hthreads⟩ :=
    process_ok_spec gcf fuel dump symbol_provider options threads si htl hsi
  have hdumpth : ¬ dump.breakpad_info.bind BreakpadInfo.dump_thread_id =
      Option.some th.thread_id := by rw [hid]; exact hdump
  refine ⟨state, hok, ?_, ?_⟩
  · rw [hreq]
    apply foldl_requestingStep_unique
    · intro it hmem hh
      have hget := List.mem_enum_iff_getElem?.mp hmem
      have hcr := hh.2
      rw [hexc] at hcr
      simp only [Option.map_some', Option.or] at hcr
      exact huniq it.1 it.2 hget (Option.some_inj.mp hcr).symm
    · refine ⟨(i, th), List.mem_enum_iff_getElem?.mpr hth, ?_, ?_⟩
      · exact hdumpth
      · rw [hexc]
        simp only [Option.map_some', Option.or]
        rw [hid]
  · intro c hc
    rw [hthreads, List.getElem?_map, List.getElem?_enum, hth]
    simp only [Option.map_some']
    refine ⟨_, rfl, ?_⟩
    rw [threadStack_not_skipped_frames _ _ _ _ _ _ _ _ _ _ _ _ _ hdumpth]
    have hcond : (((dump.exception.map ExceptionStream.crashing_thread_id).or
        (dump.breakpad_info.bind BreakpadInfo.requesting_thread_id)).map
        (fun tid => tid == th.thread_id)).getD false = true := by
      rw [hexc]
      simp only [Option.map_some', Option.or, Option.getD_some]
      rw [hid]
      exact beq_self_eq_true _
    rw [if_pos hcond]
    have hctx : (dump.exception.bind ExceptionStream.context).or th.context =
        Option.some c := by
      rw [hexc]
      exact hc
    rw [hctx]
    show ((walkFrames gcf _ _ _ fuel Option.none
      (StackFrame.from_context c FrameTrust.context)).map
      (recordUnloaded _)).head?.map (fun f => f.context.regs) =
        Option.some c.regs
    rw [List.head?_map, walkFrames_head?]
    simp only [Option.map_some']
    rw [recordUnloaded_context, fill_source_line_info_context]
    rfl

/-- C2 counterexample: with the Breakpad dump thread id equal to the
exception's crashing thread id 7, the thread with id 7 is skipped and
`requesting_thread` stays `None`, where the claim as stated demands
`Some 0`. -/
theorem requesting_thread_dump_overlap_cex :
    (process_minidump_with_options gcfNone 1
        { emptyDump with
          thread_list := Option.some [thread7]
          system_info := Option.some sysinfo0
          breakpad_info := Option.some
            { dump_thread_id := Option.some 7
              requesting_thread_id := Option.none }
          exception := Option.some
            { crashing_thread_id := 7
              crash_reason := 0
              crash_address := 0
              context := Option.some ctxE } } providerErr
        options0).toOption.map ProcessState.requesting_thread =
      Option.some Option.none := by
  rfl

/-- Witness for C2 (amended): thread 7 crashes with an exception context;
`requesting_thread = Some 0` and the seed frame carries the exception
context's registers. -/
theorem requesting_thread_selection_witness :
    (process_minidump_with_options gcfNone 1
        { emptyDump with
          thread_list := Option.some [thread7]
          system_info := Option.some sysinfo0
          exception := Option.some
            { crashing_thread_id := 7
              crash_reason := 0
              crash_address := 0
              context := Option.some ctxE } } providerErr
        options0).toOption.map
        (fun state =>
          (state.requesting_thread,
            state.threads[0]?.map
              (fun stack =>
                stack.frames.head?.map (fun f => f.context.regs)))) =
      Option.some (Option.some 0, Option.some (Option.some ctxE.regs)) := by
  obtain ⟨state, hok, hreq, hframes⟩ :=
    requesting_thread_selection gcfNone 1
      { emptyDump with
        thread_list := Option.some [thread7]
        system_info := Option.some sysinfo0
        exception := Option.some
          { crashing_thread_id := 7
            crash_reason := 0
            crash_address := 0
            context := Option.some ctxE } } providerErr options0 [thread7]
      sysinfo0
      { crashing_thread_id := 7
        crash_reason := 0
        crash_address := 0
        context := Option.some ctxE } 0 thread7 rfl rfl rfl rfl rfl
      (fun j th' hj _ => by
        cases j with
        | zero => rfl
        | succ n => exact absurd hj (by simp))
      (by decide)
  obtain ⟨stack, hstack, hhead⟩ := hframes ctxE rfl
  rw [hok]
  simp only [Except.toOption, Option.map_some']
  rw [hreq, hstack]
  simp only [Option.map_some']
  rw [hhead]

/-- C3: when the Breakpad-info stream's dump thread id matches a thread's id,
that thread's `CallStack` is exactly `CallStack::with_info(id, DumpThreadSkipped)`
— zero frames, `info = DumpThreadSkipped`, `thread_id` the thread's id, and
no stack walk performed — while every other thread's `CallStack` equals the
one produced when no dump thread id is reported. -/
theorem dump_thread_skipped_stack (gcf : GetCallerFrame) (fuel : Nat)
    (dump : Dump) (symbol_provider : SymbolProviderModel)
    (options : ProcessorOptions) (threads : List RawThread)
    (si : SystemInfoStream) (b : BreakpadInfo) (T : Nat)
    (htl : dump.thread_list = Option.some threads)
    (hsi : dump.system_info = Option.some si)
    (hbp : dump.breakpad_info = Option.some b)
    (hdt : b.dump_thread_id = Option.some T) :
    ∃ state state',
      process_minidump_with_options gcf fuel dump symbol_provider options =
        Except.ok state ∧
      process_minidump_with_options gcf fuel
          { dump with
            breakpad_info := Option.some
              { dump_thread_id := Option.none
                requesting_thread_id := b.requesting_thread_id } }
          symbol_provider options = Except.ok state' ∧
      (∀ i : Nat, ∀ th : RawThread, threads[i]? = Option.some th →
        th.thread_id = T →
        state.threads[i]? =
          Option.some
            (CallStack.with_info T CallStackInfo.dumpThreadSkipped)) ∧
      (∀ i : Nat, ∀ th : RawThread, threads[i]? = Option.some th →
        ¬ th.thread_id = T →
        state.threads[i]? = state'.threads[i]?) := by
  obtain ⟨state, hok, -, hthreads⟩ :=
    process_ok_spec gcf fuel dump symbol_provider options threads si htl hsi
  obtain ⟨state', hok', -, hthreads'⟩ :=
    process_ok_spec gcf fuel
      { dump with
        breakpad_info := Option.some
          { dump_thread_id := Option.none
            requesting_thread_id := b.requesting_thread_id } }
      symbol_provider options threads si htl hsi
  refine ⟨state, state', hok, hok', ?_, ?_⟩
  · intro i th hi hT
    rw [hthreads, List.getElem?_map, List.getElem?_enum, hi]
    simp only [Option.map_some']
    rw [threadStack_skipped]
    · rw [hT]
    · rw [hbp, Option.some_bind, hdt, hT]
  · intro i th hi hT
    rw [hthreads, hthreads', List.getElem?_map, List.getElem?_map,
      List.getElem?_enum, hi]
    simp only [Option.map_some']
    rw [hbp]
    congr 1
    apply threadStack_dtid_irrelevant
    · rw [Option.some_bind, hdt]
      exact fun hh => hT (Option.some_inj.mp hh).symm
    · simp

/-- Witness for C3: thread 7 is the dump thread, thread 9 is not; thread 7
gets the skipped stack and thread 9's stack is unchanged by removing the
dump thread id. -/
theorem dump_thread_skipped_stack_witness :
    (process_minidump_with_options gcfNone 1
        { emptyDump with
          thread_list := Option.some [thread7, thread9]
          system_info := Option.some sysinfo0
          breakpad_info := Option.some
            { dump_thread_id := Option.some 7
              requesting_thread_id := Option.none } } providerErr
        options0).toOption.map (fun s => s.threads[0]?) =
      Option.some
        (Option.some
          (CallStack.with_info 7 CallStackInfo.dumpThreadSkipped)) ∧
    (process_minidump_with_options gcfNone 1
        { emptyDump with
          thread_list := Option.some [thread7, thread9]
          system_info := Option.some sysinfo0
          breakpad_info := Option.some
            { dump_thread_id := Option.some 7
              requesting_thread_id := Option.none } } providerErr
        options0).toOption.map (fun s => s.threads[1]?) =
      (process_minidump_with_options gcfNone 1
        { emptyDump with
          thread_list := Option.some [thread7, thread9]
          system_info := Option.some sysinfo0
          breakpad_info := Option.some
            { dump_thread_id := Option.none
              requesting_thread_id := Option.none } } providerErr
        options0).toOption.map (fun s => s.threads[1]?) := by
  obtain ⟨state, state', hok, hok', hskip, hsame⟩ :=
    dump_thread_skipped_stack gcfNone 1
      { emptyDump with
        thread_list := Option.some [thread7, thread9]
        system_info := Option.some sysinfo0
        breakpad_info := Option.some
          { dump_thread_id := Option.some 7
            requesting_thread_id := Option.none } } providerErr options0
      [thread7, thread9] sysinfo0
      { dump_thread_id := Option.some 7
        requesting_thread_id := Option.none } 7 rfl rfl rfl rfl
  constructor
  · rw [hok]
    simp only [Except.toOption, Option.map_some']
    rw [hskip 0 thread7 rfl rfl]
  · rw [hok,
      show process_minidump_with_options gcfNone 1
          { emptyDump with
            thread_list := Option.some [thread7, thread9]
            system_info := Option.some sysinfo0
            breakpad_info := Option.some
              { dump_thread_id := Option.none
                requesting_thread_id := Option.none } } providerErr
          options0 = Except.ok state' from hok']
    simp only [Except.toOption, Option.map_some']
    rw [hsame 1 thread9 rfl (by decide)]

/-- C10: when the Breakpad dump thread id equals the exception's crashing
thread id, the dump-thread skip is decided first: every thread with that id
gets a `DumpThreadSkipped` stack and `requesting_thread` stays `None` even
though a crashing thread id was reported. -/
theorem dump_thread_skip_precedes_requesting (gcf : GetCallerFrame)
    (fuel : Nat) (dump : Dump) (symbol_provider : SymbolProviderModel)
    (options : ProcessorOptions) (threads : List RawThread)
    (si : SystemInfoStream) (b : BreakpadInfo) (exc : ExceptionStream)
    (htl : dump.thread_list = Option.some threads)
    (hsi : dump.system_info = Option.some si)
    (hbp : dump.breakpad_info = Option.some b)
    (hexc : dump.exception = Option.some exc)
    (hdt : b.dump_thread_id = Option.some exc.crashing_thread_id) :
    ∃ state,
      process_minidump_with_options gcf fuel dump symbol_provider options =
        Except.ok state ∧
      state.requesting_thread = Option.none ∧
      ∀ i : Nat, ∀ th : RawThread, threads[i]? = Option.some th →
        th.thread_id = exc.crashing_thread_id →
        state.threads[i]? =
          Option.some
            (CallStack.with_info th.thread_id
              CallStackInfo.dumpThreadSkipped) := by
  obtain ⟨state, hok, hreq, hthreads⟩ :=
    process_ok_spec gcf fuel dump symbol_provider options threads si htl hsi
  refine ⟨state, hok, ?_, ?_⟩
  · rw [hreq]
    apply foldl_requestingStep_no_hit
    intro it hmem hh
    have h2 := hh.2
    rw [hexc] at h2
    simp only [Option.map_some', Option.or] at h2
    apply hh.1
    rw [hbp, Option.some_bind, hdt, Option.some_inj.mp h2]
  · intro i th hi hT
    rw [hthreads, List.getElem?_map, List.getElem?_enum, hi]
    simp only [Option.map_some']
    rw [threadStack_skipped]
    rw [hbp, Option.some_bind, hdt, hT]

/-- Witness for C10: dump thread id and crashing thread id are both 7;
`requesting_thread` is `None` and thread 7's stack is the skipped stack. -/
theorem dump_thread_skip_precedes_requesting_witness :
    (process_minidump_with_options gcfNone 1
        { emptyDump with
          thread_list := Option.some [thread7]
          system_info := Option.some sysinfo0
          breakpad_info := Option.some
            { dump_thread_id := Option.some 7
              requesting_thread_id := Option.none }
          exception := Option.some
            { crashing_thread_id := 7
              crash_reason := 0
              crash_address := 0
              context := Option.some ctxE } } providerErr
        options0).toOption.map
        (fun s => (s.requesting_thread, s.threads[0]?)) =
      Option.some
        (Option.none,
          Option.some
            (CallStack.with_info 7 CallStackInfo.dumpThreadSkipped)) := by
  obtain ⟨state, hok, hreq, hskip⟩ :=
    dump_thread_skip_precedes_requesting gcfNone 1
      { emptyDump with
        thread_list := Option.some [thread7]
        system_info := Option.some sysinfo0
        breakpad_info := Option.some
          { dump_thread_id := Option.some 7
            requesting_thread_id := Option.none }
        exception := Option.some
          { crashing_thread_id := 7
            crash_reason := 0
            crash_address := 0
            context := Option.some ctxE } } providerErr options0 [thread7]
      sysinfo0
      { dump_thread_id := Option.some 7
        requesting_thread_id := Option.none }
      { crashing_thread_id := 7
        crash_reason := 0
        crash_address := 0
        context := Option.some ctxE } rfl rfl rfl rfl rfl
  rw [hok]
  simp only [Except.toOption, Option.map_some']
  rw [hreq, hskip 0 thread7 rfl rfl]
  rfl

theorem mem_insertOffset (offsets : List (String × List Nat)) (name : String)
    (off : Nat) (nm : String) (offs : List Nat) (o : Nat)
    (hmem : (nm, offs) ∈ insertOffset offsets name off) (ho : o ∈ offs) :
    (∃ offs0, (nm, offs0) ∈ offsets ∧ o ∈ offs0) ∨ (nm = name ∧ o = off) := by
  induction offsets with
  | nil =>
      rw [insertOffset, List.mem_singleton, Prod.mk.injEq] at hmem
      obtain ⟨h1, h2⟩ := hmem
      rw [h2, List.mem_singleton] at ho
      exact Or.inr ⟨h1, ho⟩
  | cons a rest ih =>
      obtain ⟨n0, os0⟩ := a
      rw [insertOffset] at hmem
      by_cases hn : n0 = name
      · rw [if_pos hn, List.mem_cons] at hmem
        rcases hmem with hmem | hmem
        · rw [Prod.mk.injEq] at hmem
          obtain ⟨h1, h2⟩ := hmem
          by_cases hoin : off ∈ os0
          · rw [if_pos hoin] at h2
            exact Or.inl ⟨os0, by rw [h1]; exact List.mem_cons_self _ _,
              h2 ▸ ho⟩
          · rw [if_neg hoin] at h2
            rw [h2, List.mem_append] at ho
            rcases ho with ho | ho
            · exact Or.inl ⟨os0, by rw [h1]; exact List.mem_cons_self _ _, ho⟩
            · exact Or.inr ⟨h1.symm ▸ hn, List.mem_singleton.mp ho⟩
        · exact Or.inl ⟨offs, List.mem_cons_of_mem _ hmem, ho⟩
      · rw [if_neg hn, List.mem_cons] at hmem
        rcases hmem with hmem | hmem
        · exact Or.inl ⟨offs, hmem ▸ List.mem_cons_self _ _, ho⟩
        · rcases ih hmem with ⟨offs0, h0, ho0⟩ | hr
          · exact Or.inl ⟨offs0, List.mem_cons_of_mem _ h0, ho0⟩
          · exact Or.inr hr

theorem foldl_insertOffset_sound (P : String → Nat → Prop) (instr : Nat)
    (us : List UnloadedModule)
    (hus : ∀ u ∈ us, P u.name (instr - u.base_of_image)) :
    ∀ acc : List (String × List Nat),
      (∀ nm offs, (nm, offs) ∈ acc → ∀ o ∈ offs, P nm o) →
      ∀ nm offs,
        (nm, offs) ∈
          us.foldl
            (fun a u => insertOffset a u.name (instr - u.base_of_image))
            acc →
        ∀ o ∈ offs, P nm o := by
  induction us with
  | nil => intro acc hacc; exact hacc
  | cons u us ih =>
      intro acc hacc nm offs hmem o ho
      refine ih (fun u' hu' => hus u' (List.mem_cons_of_mem u hu')) _
        ?_ nm offs hmem o ho
      intro nm' offs' hmem' o' ho'
      rcases mem_insertOffset acc u.name (instr - u.base_of_image) nm' offs'
          o' hmem' ho' with ⟨offs0, h0, ho0⟩ | ⟨rfl, rfl⟩
      · exact hacc nm' offs0 h0 o' ho0
      · exact hus u (List.mem_cons_self u us)

theorem recordUnloaded_of_module_some (unloaded : List UnloadedModule)
    (frame : StackFrame) (m : MinidumpModule)
    (h : frame.module = Option.some m) :
    recordUnloaded unloaded frame = frame := by
  unfold recordUnloaded
  rw [h]
  rfl

theorem recordUnloaded_sound (unloaded : List UnloadedModule)
    (frame : StackFrame) (hmod : frame.module = Option.none) (nm : String)
    (offs : List Nat)
    (hmem : (nm, offs) ∈ (recordUnloaded unloaded frame).unloaded_modules)
    (o : Nat) (ho : o ∈ offs) :
    ∃ u ∈ unloaded, u.name = nm ∧ u.contains frame.instruction = true ∧
      o = frame.instruction - u.base_of_image := by
  unfold recordUnloaded at hmem
  rw [hmod] at hmem
  simp only [Option.isNone_none, if_true] at hmem
  refine foldl_insertOffset_sound
    (fun nm0 o0 => ∃ u ∈ unloaded, u.name = nm0 ∧
      u.contains frame.instruction = true ∧
      o0 = frame.instruction - u.base_of_image)
    frame.instruction (modules_at_address unloaded frame.instruction) ?_ []
    (fun nm0 offs0 hmem0 => absurd hmem0 (List.not_mem_nil _)) nm offs hmem o
    ho
  intro u hu
  obtain ⟨humem, hucont⟩ := List.mem_filter.mp hu
  exact ⟨u, humem, rfl, hucont, rfl⟩

theorem mem_walk_stack_frames (gcf : GetCallerFrame) (fuel : Nat)
    (ctxOpt : Option MinidumpContext) (sm : Option StackMemory)
    (ms : List MinidumpModule) (sp : SymbolProviderModel) (f : StackFrame)
    (hfresh : ∀ cf gc fr, gcf cf gc sm ms = Option.some fr →
      fr.module = Option.none)
    (hf : f ∈ (walk_stack gcf fuel ctxOpt sm ms sp).frames) :
    ∃ g : StackFrame, g.module = Option.none ∧
      f = fill_source_line_info g ms sp := by
  cases ctxOpt with
  | none => exact absurd hf (List.not_mem_nil f)
  | some c =>
      obtain ⟨g, hsrc, hfill⟩ :=
        mem_walkFrames gcf sm ms sp fuel Option.none
          (StackFrame.from_context c FrameTrust.context) f hf
      refine ⟨g, ?_, hfill⟩
      rcases hsrc with rfl | ⟨cf, gc, hg⟩
      · rfl
      · exact hfresh cf gc g hg

/-- C5 (amended): in every returned `CallStack`, every frame (the seed frame
included) either has its instruction inside some loaded module's interval
with `module = Some` of that module, or has `module = None` and an
`unloaded_modules` map — possibly empty — in which every offset recorded
under an unloaded module's name equals `instruction - base_of_image` for an
unloaded module of that name covering the instruction. The hypothesis on the
unwinder reflects that the per-architecture unwinders build caller frames
with `StackFrame::from_context`, i.e. with no module attached. -/
theorem frame_module_attribution (gcf : GetCallerFrame) (fuel : Nat)
    (dump : Dump) (symbol_provider : SymbolProviderModel)
    (options : ProcessorOptions) (threads : List RawThread)
    (si : SystemInfoStream) (state : ProcessState)
    (hfresh : ∀ cf gc sm ms fr, gcf cf gc sm ms = Option.some fr →
      fr.module = Option.none)
    (htl : dump.thread_list = Option.some threads)
    (hsi : dump.system_info = Option.some si)
    (hok : process_minidump_with_options gcf fuel dump symbol_provider
      options = Except.ok state) :
    ∀ stack ∈ state.threads, ∀ frame ∈ stack.frames,
      (∃ m : MinidumpModule, frame.module = Option.some m ∧
        m.contains frame.instruction = true) ∨
      (frame.module = Option.none ∧
        ∀ nm offs, (nm, offs) ∈ frame.unloaded_modules → ∀ o ∈ offs,
          ∃ u ∈ dump.unloaded_module_list.getD [], u.name = nm ∧
            u.contains frame.instruction = true ∧
            o = frame.instruction - u.base_of_image) := by
  obtain ⟨state0, hok0, -, hthreads0⟩ :=
    process_ok_spec gcf fuel dump symbol_provider options threads si htl hsi
  obtain rfl : state = state0 := by
    rw [hok] at hok0
    cases hok0
    rfl
  intro stack hstack frame hframe
  rw [hthreads0] at hstack
  obtain ⟨it, hit, rfl⟩ := List.mem_map.mp hstack
  by_cases hskip : dump.breakpad_info.bind BreakpadInfo.dump_thread_id =
      Option.some it.2.thread_id
  · rw [threadStack_skipped _ _ _ _ _ _ _ _ _ _ _ _ it hskip] at hframe
    exact absurd hframe (List.not_mem_nil frame)
  · rw [threadStack_not_skipped_frames _ _ _ _ _ _ _ _ _ _ _ _ it hskip]
      at hframe
    obtain ⟨f0, hf0, rfl⟩ := List.mem_map.mp hframe
    obtain ⟨g, hgmod, rfl⟩ :=
      mem_walk_stack_frames _ _ _ _ _ _ f0
        (fun cf gc fr h => hfresh cf gc _ _ fr h) hf0
    cases hmod : module_at_address (dump.module_list.getD []) g.instruction
      with
    | some m =>
        left
        rw [recordUnloaded_of_module_some _ _ m
          (fill_source_line_info_module_some g _ _ m hmod)]
        refine ⟨m, fill_source_line_info_module_some g _ _ m hmod, ?_⟩
        rw [fill_source_line_info_instruction]
        have hp := List.find?_some
          (p := fun m0 => MinidumpModule.contains m0 g.instruction)
          (l := dump.module_list.getD []) hmod
        exact hp
    | none =>
        right
        rw [fill_source_line_info_no_module g _ _ hmod]
        constructor
        · rw [recordUnloaded_module]
          exact hgmod
        · intro nm offs hmem o ho
          rw [recordUnloaded_instruction]
          exact recordUnloaded_sound _ g hgmod nm offs hmem o ho

/-! Fixtures for the C5 counterexample and witness. -/

def moduleM : MinidumpModule :=
  { base_of_image := 100, size_of_image := 10, name := "m" }

def ctx105 : MinidumpContext := { regs := [("pc", 105)] }

def ctx110 : MinidumpContext := { regs := [("pc", 110)] }

def thread5 : RawThread :=
  { thread_id := 5
    context := Option.some ctx105
    stack_start := 0
    last_error := Option.none }

/-- An unwinder that recovers one scanned caller frame at address 110 —
one past the end of `moduleM`, so the spec's own validity probe (which tests
`pc - 1 = 109`, inside the module, and treats a provider error as valid)
accepts it. -/
def gcfCex : GetCallerFrame := fun f _ _ _ =>
  if f.trust = FrameTrust.context then
    Option.some (StackFrame.from_context ctx110 FrameTrust.scan)
  else Option.none

def dumpC5 : Dump :=
  { emptyDump with
    thread_list := Option.some [thread5]
    system_info := Option.some sysinfo0
    module_list := Option.some [moduleM] }

/-- C5 counterexample: the non-seed frame at 110 lies in no loaded module,
yet its `unloaded_modules` map is empty (there are no unloaded modules),
against the claim that such a frame carries a non-empty map; the frame is a
legitimate unwinder result, since `instruction_seems_valid_by_symbols`
accepts 110. -/
theorem frame_module_attribution_cex :
    (process_minidump_with_options gcfCex 1 dumpC5 providerErr
        options0).toOption.map
        (fun s =>
          s.threads.map
            (fun st =>
              st.frames.map
                (fun f => (f.instruction, f.module.isNone,
                  f.unloaded_modules)))) =
      Option.some [[(105, false, []), (110, true, [])]] ∧
    module_at_address [moduleM] 110 = Option.none ∧
    instruction_seems_valid_by_symbols 110 [moduleM] providerErr =
      Option.some true := by
  refine ⟨?_, ?_, ?_⟩ <;> rfl

/-- Witness for C5 (amended) on the counterexample dump: the amended
attribution invariant holds for all its frames. -/
theorem frame_module_attribution_witness :
    ∃ state,
      process_minidump_with_options gcfCex 1 dumpC5 providerErr options0 =
        Except.ok state ∧
      ∀ stack ∈ state.threads, ∀ frame ∈ stack.frames,
        (∃ m : MinidumpModule, frame.module = Option.some m ∧
          m.contains frame.instruction = true) ∨
        (frame.module = Option.none ∧
          ∀ nm offs, (nm, offs) ∈ frame.unloaded_modules → ∀ o ∈ offs,
            ∃ u ∈ dumpC5.unloaded_module_list.getD [], u.name = nm ∧
              u.contains frame.instruction = true ∧
              o = frame.instruction - u.base_of_image) := by
  obtain ⟨state, hok, -, -⟩ :=
    process_ok_spec gcfCex 1 dumpC5 providerErr options0 [thread5] sysinfo0
      rfl rfl
  refine ⟨state, hok, ?_⟩
  exact frame_module_attribution gcfCex 1 dumpC5 providerErr options0
    [thread5] sysinfo0 state
    (fun cf gc sm ms fr h => by
      unfold gcfCex at h
      by_cases ht : cf.trust = FrameTrust.context
      · rw [if_pos ht] at h
        cases h
        rfl
      · rw [if_neg ht] at h
        exact absurd h (by simp))
    rfl rfl hok

end Minidump
